import Mathlib

/-!
Shallow embedding of the three MCP adapter processes in this repository
(the Brave web-search server in `src/unnamed/part_000`, the GitHub server in
`src/github-server/src/index.ts`, and the GitLab server in
`src/gitlab-server/src/index.ts`), together with theorems settling the
spec claims about their tool-invocation dispatch contract.

Each adapter's `CallToolRequestSchema` handler is embedded as a pure
function from an invocation request and a network oracle to a result
`Except McpError InvocationResult` paired with the ordered list of outbound
backing-service calls it issued.  JavaScript dynamic values that flow
through the handlers are embedded as `JsValue`; JSON.stringify with a
two-space indent is embedded as `renderJson`.
-/

namespace Mcp

/-- A dynamically typed JavaScript value as it appears in an argument bag
(only strings and numbers occur in the adapters; numbers are embedded as
integers). -/
inductive JsValue
  | vstr (s : String)
  | vnum (n : Int)
deriving DecidableEq, BEq

/-- An incoming `CallToolRequestSchema` request: `request.params.name` and
`request.params.arguments` (which may be absent altogether). -/
structure McpRequest where
  name : String
  arguments : Option (List (String × JsValue))

/-- The MCP SDK error codes used by the three adapters. -/
inductive ErrorCode
  | MethodNotFound
  | InvalidParams
  | InternalError
deriving DecidableEq, BEq

/-- The SDK's `McpError`: an error code plus a message. -/
structure McpError where
  code : ErrorCode
  message : String
deriving DecidableEq, BEq

/-- One element of a result's `content` array, e.g. `{type: "text", text: s}`. -/
structure ContentItem where
  type : String
  text : String
deriving DecidableEq, BEq

/-- A successful tool result: `{content: [...]}`. -/
structure InvocationResult where
  content : List ContentItem
deriving DecidableEq, BEq

/-- An error thrown by a backing-service call (the axios / Octokit /
Gitbeaker client): either an axios error carrying an optional HTTP status,
a plain `Error` with a message, or a thrown non-`Error` value. -/
inductive NetErr
  | axios (status : Option Int) (message : String)
  | err (message : String)
  | nonError
deriving DecidableEq, BEq

/-- The expression `error instanceof Error ? error.message : 'Unknown error'` applied to a
backing-service error (axios errors are `Error` instances). -/
def netErrMessage : NetErr → String
  | .axios _ m => m
  | .err m => m
  | .nonError => "Unknown error"

/-- The test `axios.isAxiosError(error) && error.response?.status === 401`. -/
def isAxios401 : NetErr → Bool
  | .axios (some 401) _ => true
  | _ => false

/-- Embedding of `request.params.arguments?.key`: optional chaining through a possibly
absent argument bag. -/
def argGet (args : Option (List (String × JsValue))) (key : String) : Option JsValue :=
  match args with
  | none => none
  | some bag => bag.lookup key

/-- JavaScript `String(x)` on a possibly-undefined value: `String(undefined)`
is the literal string "undefined". -/
def jsToString : Option JsValue → String
  | none => "undefined"
  | some (.vstr s) => s
  | some (.vnum n) => toString n

/-- JavaScript whitespace stripped by `Number` coercion. -/
def isJsSpace (c : Char) : Bool :=
  c = ' ' || c = '\t' || c = '\n' || c = '\r'

/-- Parse a nonempty run of decimal digits; `none` if any character is not
a digit. -/
def parseDigitsAux : List Char → Nat → Option Nat
  | [], acc => some acc
  | c :: cs, acc =>
    if c.isDigit then parseDigitsAux cs (acc * 10 + (c.toNat - 48)) else none

/-- JavaScript string-to-number coercion (`Number` on a string): the empty
or all-whitespace string is 0, an optionally signed integer literal is its
value, anything else is NaN (embedded as `none`; fractional and hex
literals do not occur in the adapters and are treated as NaN). -/
def parseJsNumber (s : String) : Option Int :=
  match ((s.toList.dropWhile isJsSpace).reverse.dropWhile isJsSpace).reverse with
  | [] => some 0
  | '-' :: ds =>
    match ds with
    | [] => none
    | _ => (parseDigitsAux ds 0).map (fun n => -(n : Int))
  | '+' :: ds =>
    match ds with
    | [] => none
    | _ => (parseDigitsAux ds 0).map (fun n => (n : Int))
  | ds => (parseDigitsAux ds 0).map (fun n => (n : Int))

/-- JavaScript `Number(x)` on a possibly-undefined value; `none` is NaN. -/
def jsToNumber : Option JsValue → Option Int
  | none => none
  | some (.vnum n) => some n
  | some (.vstr s) => parseJsNumber s

/-- Embedding of `x || 5` after a `Number` coercion: NaN and 0 are falsy and fall back
to 5; every other number passes through. -/
def orFive : Option Int → Int
  | none => 5
  | some 0 => 5
  | some n => n

/-- JavaScript truthiness of a possibly-undefined value: `undefined`, the
empty string and 0 are falsy. -/
def jsTruthy : Option JsValue → Bool
  | none => false
  | some (.vstr s) => s ≠ ""
  | some (.vnum n) => n ≠ 0

/-- A JSON value as produced by the adapters' reshaping code. -/
inductive Json
  | jstr (s : String)
  | jnum (n : Int)
  | jarr (xs : List Json)
  | jobj (fields : List (String × Json))

/-- Lower-case hex digit. -/
def hexDigit (n : Nat) : Char :=
  if n < 10 then Char.ofNat (48 + n) else Char.ofNat (87 + n)

/-- JSON string escaping as performed by `JSON.stringify`. -/
def escapeJsonChar (c : Char) : String :=
  if c = '"' then "\\\""
  else if c = '\\' then "\\\\"
  else if c = '\n' then "\\n"
  else if c = '\r' then "\\r"
  else if c = '\t' then "\\t"
  else if c.toNat = 8 then "\\b"
  else if c.toNat = 12 then "\\f"
  else if c.toNat < 32 then
    "\\u00" ++ String.mk [hexDigit (c.toNat / 16), hexDigit (c.toNat % 16)]
  else String.singleton c

/-- Escape every character of a string for JSON output. -/
def escapeJsonString (s : String) : String :=
  String.join (s.toList.map escapeJsonChar)

/-- The indentation produced by `JSON.stringify(v, null, 2)` at depth `d`. -/
def jsonIndent (d : Nat) : String :=
  String.mk (List.replicate (2 * d) ' ')

mutual

/-- Embedding of `JSON.stringify(v, null, 2)` at nesting depth `d`. -/
def renderJson (d : Nat) : Json → String
  | .jstr s => "\"" ++ escapeJsonString s ++ "\""
  | .jnum n => toString n
  | .jarr [] => "[]"
  | .jarr (x :: xs) =>
      "[\n" ++ String.intercalate ",\n" (renderItems (d + 1) (x :: xs))
        ++ "\n" ++ jsonIndent d ++ "]"
  | .jobj [] => "\x7b\x7d"
  | .jobj (f :: fs) =>
      "\x7b\n" ++ String.intercalate ",\n" (renderFields (d + 1) (f :: fs))
        ++ "\n" ++ jsonIndent d ++ "\x7d"

/-- Render the elements of a JSON array, each on its own indented line. -/
def renderItems (d : Nat) : List Json → List String
  | [] => []
  | x :: xs => (jsonIndent d ++ renderJson d x) :: renderItems d xs

/-- Render the fields of a JSON object, each on its own indented line. -/
def renderFields (d : Nat) : List (String × Json) → List String
  | [] => []
  | (k, v) :: fs =>
      (jsonIndent d ++ "\"" ++ escapeJsonString k ++ "\": " ++ renderJson d v)
        :: renderFields d fs

end

/-! ### Base64 and UTF-8 decoding (`Buffer.from(s, 'base64').toString('utf-8')`) -/

/-- Value of a base64 alphabet character; `none` for characters outside the
alphabet (Node's decoder skips them, as it skips `=` padding). -/
def b64Val (c : Char) : Option Nat :=
  if 'A' ≤ c ∧ c ≤ 'Z' then some (c.toNat - 65)
  else if 'a' ≤ c ∧ c ≤ 'z' then some (c.toNat - 71)
  else if '0' ≤ c ∧ c ≤ '9' then some (c.toNat + 4)
  else if c = '+' then some 62
  else if c = '/' then some 63
  else none

/-- Pack groups of four 6-bit values into three bytes; a trailing group of
two or three sextets yields one or two bytes. -/
def b64Groups : List Nat → List Nat
  | a :: b :: c :: d :: rest =>
      (a * 4 + b / 16) :: ((b % 16) * 16 + c / 4) :: ((c % 4) * 64 + d) :: b64Groups rest
  | [a, b] => [a * 4 + b / 16]
  | [a, b, c] => [a * 4 + b / 16, (b % 16) * 16 + c / 4]
  | _ => []

/-- Decode a base64 string to its byte sequence. -/
def base64Decode (s : String) : List Nat :=
  b64Groups (s.toList.filterMap b64Val)

/-- The Unicode replacement character U+FFFD emitted for malformed UTF-8. -/
def replChar : Char := Char.ofNat 0xFFFD

/-- Is `b` a UTF-8 continuation byte (10xxxxxx)? -/
def isContByte (b : Nat) : Bool := 0x80 ≤ b && b < 0xC0

/-- Decode a byte sequence as UTF-8, emitting U+FFFD for malformed
sequences, as `Buffer.toString('utf-8')` does.  The first argument is
recursion fuel: every step consumes at least one byte, so fuel equal to
the byte count (as supplied by `utf8DecodeAux`) never runs out. -/
def utf8DecodeGo : Nat → List Nat → List Char
  | 0, _ => []
  | _ + 1, [] => []
  | fuel + 1, b :: rest =>
    if b < 0x80 then Char.ofNat b :: utf8DecodeGo fuel rest
    else if b < 0xC2 then replChar :: utf8DecodeGo fuel rest
    else if b < 0xE0 then
      match rest with
      | b2 :: rest2 =>
        if isContByte b2 then
          Char.ofNat ((b - 0xC0) * 64 + (b2 - 0x80)) :: utf8DecodeGo fuel rest2
        else replChar :: utf8DecodeGo fuel (b2 :: rest2)
      | [] => [replChar]
    else if b < 0xF0 then
      match rest with
      | b2 :: b3 :: rest3 =>
        if isContByte b2 ∧ isContByte b3 then
          if 0x800 ≤ (b - 0xE0) * 4096 + (b2 - 0x80) * 64 + (b3 - 0x80) ∧
              ¬(0xD800 ≤ (b - 0xE0) * 4096 + (b2 - 0x80) * 64 + (b3 - 0x80) ∧
                (b - 0xE0) * 4096 + (b2 - 0x80) * 64 + (b3 - 0x80) ≤ 0xDFFF) then
            Char.ofNat ((b - 0xE0) * 4096 + (b2 - 0x80) * 64 + (b3 - 0x80)) :: utf8DecodeGo fuel rest3
          else replChar :: utf8DecodeGo fuel (b2 :: b3 :: rest3)
        else replChar :: utf8DecodeGo fuel (b2 :: b3 :: rest3)
      | [b2] => replChar :: utf8DecodeGo fuel [b2]
      | [] => [replChar]
    else if b < 0xF5 then
      match rest with
      | b2 :: b3 :: b4 :: rest4 =>
        if isContByte b2 ∧ isContByte b3 ∧ isContByte b4 then
          if 0x10000 ≤ (b - 0xF0) * 262144 + (b2 - 0x80) * 4096 + (b3 - 0x80) * 64 + (b4 - 0x80) ∧
              (b - 0xF0) * 262144 + (b2 - 0x80) * 4096 + (b3 - 0x80) * 64 + (b4 - 0x80) ≤ 0x10FFFF then
            Char.ofNat ((b - 0xF0) * 262144 + (b2 - 0x80) * 4096 + (b3 - 0x80) * 64 + (b4 - 0x80))
              :: utf8DecodeGo fuel rest4
          else replChar :: utf8DecodeGo fuel (b2 :: b3 :: b4 :: rest4)
        else replChar :: utf8DecodeGo fuel (b2 :: b3 :: b4 :: rest4)
      | [b2, b3] => replChar :: utf8DecodeGo fuel [b2, b3]
      | [b2] => replChar :: utf8DecodeGo fuel [b2]
      | [] => [replChar]
    else replChar :: utf8DecodeGo fuel rest

/-- Decode a byte sequence as UTF-8 (fuel instantiated to the byte count). -/
def utf8DecodeAux (bs : List Nat) : List Char :=
  utf8DecodeGo bs.length bs

/-- Embedding of `Buffer.from(s, 'base64').toString('utf-8')`. -/
def bufferBase64Utf8 (s : String) : String :=
  String.mk (utf8DecodeAux (base64Decode s))

/-! ### The Brave web-search adapter (`src/unnamed/part_000`) -/

/-- One entry of the Brave response's `web.results`. -/
structure BraveSearchResult where
  title : String
  url : String
  description : String
deriving DecidableEq, BEq

/-- The `web` field of a Brave search response. -/
structure BraveWeb where
  results : Option (List BraveSearchResult)
deriving DecidableEq, BEq

/-- A Brave search response body (`web` may be absent). -/
structure BraveSearchResponse where
  web : Option BraveWeb
deriving DecidableEq, BEq

/-- The request-determined parameters of the one GET the search handler
issues (`text_decorations` and `text_format` are constants in the source). -/
structure BraveCall where
  q : String
  count : Int
deriving DecidableEq, BEq

/-- The single tool name the search adapter registers. -/
def braveToolNames : List String := ["search"]

/-- The declared bounds and default of an integer schema field. -/
structure NumberSchema where
  minimum : Option Int
  maximum : Option Int
  default : Option Int
deriving DecidableEq, BEq

/-- The `count` property of the search tool's input schema
(lines 59–65 of the source: minimum 1, maximum 20, default 5). -/
def braveCountSchema : NumberSchema := ⟨some 1, some 20, some 5⟩

/-- The required fields of the search tool's input schema. -/
def braveRequiredArgs : List String := ["query"]

/-- The fixed message returned when the backing call fails with HTTP 401. -/
def braveAuthMsg : String :=
  "Search failed: Please visit https://api.search.brave.com to get started with Brave Search API"

/-- The search handler's `catch` block: a 401 axios error becomes the fixed
guidance message; everything else is wrapped with its own message. -/
def braveCatch (e : NetErr) : McpError :=
  if isAxios401 e then ⟨.InternalError, braveAuthMsg⟩
  else ⟨.InternalError, "Search failed: " ++ netErrMessage e⟩

/-- Reshape one Brave result to `{title, url, description}`. -/
def braveResultJson (r : BraveSearchResult) : Json :=
  .jobj [("title", .jstr r.title), ("url", .jstr r.url), ("description", .jstr r.description)]

/-- The `try` body from the outbound GET on: issue the call, return the
"No results found." text when `web?.results?` is absent or empty, otherwise
the JSON reshape of the results. -/
def braveSearchCall (call : BraveCall)
    (net : BraveCall → Except NetErr BraveSearchResponse) :
    Except McpError InvocationResult × List BraveCall :=
  match net call with
  | .error e => (.error (braveCatch e), [call])
  | .ok resp =>
    match resp.web.bind BraveWeb.results with
    | none => (.ok ⟨[⟨"text", "No results found."⟩]⟩, [call])
    | some [] => (.ok ⟨[⟨"text", "No results found."⟩]⟩, [call])
    | some (r :: rs) =>
        (.ok ⟨[⟨"text", renderJson 0 (.jarr ((r :: rs).map braveResultJson))⟩]⟩, [call])

/-- The search adapter's `CallToolRequestSchema` handler: reject names other
than "search" with `MethodNotFound`; coerce `query` with `String(...)` and
`count` with `Number(...) || 5`; reject a falsy coerced query with
`InvalidParams`; otherwise issue the GET and reshape. -/
def braveHandle (req : McpRequest)
    (net : BraveCall → Except NetErr BraveSearchResponse) :
    Except McpError InvocationResult × List BraveCall :=
  if req.name = "search" then
    if jsToString (argGet req.arguments "query") = "" then
      (.error ⟨.InvalidParams, "Search query is required"⟩, [])
    else
      braveSearchCall
        ⟨jsToString (argGet req.arguments "query"),
          orFive (jsToNumber (argGet req.arguments "count"))⟩ net
  else (.error ⟨.MethodNotFound, "Unknown tool"⟩, [])

/-- The search adapter's startup check: `process.env.BRAVE_API_KEY` is read
once and a falsy value (absent or empty) throws before the transport is
connected. -/
def braveStartup (env : String → Option String) : Except String Unit :=
  if (env "BRAVE_API_KEY").getD "" = "" then
    .error "BRAVE_API_KEY environment variable is required"
  else .ok ()

/-! ### The GitHub adapter (`src/github-server/src/index.ts`) -/

/-- The three tool names the GitHub adapter registers. -/
def githubToolNames : List String := ["read_file", "search_code", "list_repository_content"]

/-- The parameters of an `octokit.repos.getContent` call as the handlers
build them: `owner`, `repo` and `path` are passed through from the
argument bag unvalidated (so possibly `undefined`), `ref` defaults to
"main" (and `path` to "" in the listing handler). -/
structure GetContentParams where
  owner : Option JsValue
  repo : Option JsValue
  path : Option JsValue
  ref : JsValue
deriving DecidableEq, BEq

/-- One entry of a directory-listing response from `getContent`. -/
structure GhDirEntry where
  name : String
  type : String
  path : String
  size : Int
deriving DecidableEq, BEq

/-- The body of a `getContent` response: either a non-array object whose
`content` field may be absent or non-string, or an array of directory
entries (for which the `'content' in data` test is false). -/
inductive GhContentData
  | obj (content : Option JsValue)
  | arr (entries : List GhDirEntry)
deriving DecidableEq, BEq

/-- The `repository` object of a code-search match (only `full_name` is
consumed). -/
structure GhRepo where
  full_name : String
deriving DecidableEq, BEq

/-- One item of an `octokit.search.code` response. -/
structure GhSearchItem where
  repository : GhRepo
  path : String
  html_url : String
deriving DecidableEq, BEq

/-- An `octokit.search.code` response body (only `items` is consumed). -/
structure GhSearchData where
  items : List GhSearchItem
deriving DecidableEq, BEq

/-- A recorded outbound Octokit call with the parameters it was given. -/
inductive GhCall
  | getContent (p : GetContentParams)
  | searchCode (q : Option JsValue) (per_page : Int)
deriving DecidableEq, BEq

/-- The Octokit client as an oracle for the two endpoints the handlers use. -/
structure GhNet where
  getContent : GetContentParams → Except NetErr GhContentData
  searchCode : Option JsValue → Except NetErr GhSearchData

/-- An error caught by a handler's `catch` block: either an `McpError`
thrown by the handler body or an error from the backing service. -/
inductive Caught
  | mcp (e : McpError)
  | net (e : NetErr)

/-- The GitHub handler's `catch` block: `McpError` instances are re-thrown
unchanged, everything else is wrapped as `InternalError` with the original
message appended to "GitHub API error: ". -/
def ghCatch : Except Caught InvocationResult → Except McpError InvocationResult
  | .ok r => .ok r
  | .error (.mcp e) => .error e
  | .error (.net e) => .error ⟨.InternalError, "GitHub API error: " ++ netErrMessage e⟩

/-- Issue the `read_file` `getContent` call and decode the response:
a string `content` field is base64-decoded to UTF-8 text, any other shape
throws `InternalError`. -/
def ghReadFileCall (p : GetContentParams) (net : GhNet) :
    Except Caught InvocationResult × List GhCall :=
  match net.getContent p with
  | .error e => (.error (.net e), [.getContent p])
  | .ok (.obj (some (.vstr c))) =>
      (.ok ⟨[⟨"text", bufferBase64Utf8 c⟩]⟩, [.getContent p])
  | .ok _ =>
      (.error (.mcp ⟨.InternalError, "Invalid response format from GitHub API"⟩), [.getContent p])

/-- The `read_file` case: destructure the (unvalidated) argument bag with
`ref` defaulting to "main"; destructuring an absent bag throws a
`TypeError`. -/
def ghReadFile (args : Option (List (String × JsValue))) (net : GhNet) :
    Except Caught InvocationResult × List GhCall :=
  match args with
  | none => (.error (.net (.err "Cannot destructure property owner of undefined")), [])
  | some bag =>
      ghReadFileCall
        ⟨bag.lookup "owner", bag.lookup "repo", bag.lookup "path",
          (bag.lookup "ref").getD (.vstr "main")⟩ net

/-- Embedding of the append `q += " language:" + language` (JavaScript `+=`
coerces both sides to strings). -/
def ghAddLanguage (q lang : Option JsValue) : Option JsValue :=
  if jsTruthy lang then some (.vstr (jsToString q ++ " language:" ++ jsToString lang))
  else q

/-- Embedding of the owner/repo qualifier appends: `repo:owner/repo` when both
are truthy, else `user:owner` when only the owner is. -/
def ghAddOwnerRepo (q ow rp : Option JsValue) : Option JsValue :=
  if jsTruthy ow && jsTruthy rp then
    some (.vstr (jsToString q ++ " repo:" ++ jsToString ow ++ "/" ++ jsToString rp))
  else if jsTruthy ow then
    some (.vstr (jsToString q ++ " user:" ++ jsToString ow))
  else q

/-- Build the code-search query string from the argument bag, appending the
`language:`, `repo:` or `user:` qualifiers under JavaScript truthiness. -/
def ghBuildQuery (bag : List (String × JsValue)) : Option JsValue :=
  ghAddOwnerRepo (ghAddLanguage (bag.lookup "query") (bag.lookup "language"))
    (bag.lookup "owner") (bag.lookup "repo")

/-- Reshape one code-search item to `{repository, path, url}`. -/
def ghItemJson (item : GhSearchItem) : Json :=
  .jobj [("repository", .jstr item.repository.full_name), ("path", .jstr item.path),
    ("url", .jstr item.html_url)]

/-- Issue the `search.code` call (`per_page: 10`) and reshape the items. -/
def ghSearchCall (q : Option JsValue) (net : GhNet) :
    Except Caught InvocationResult × List GhCall :=
  match net.searchCode q with
  | .error e => (.error (.net e), [.searchCode q 10])
  | .ok data =>
      (.ok ⟨[⟨"text", renderJson 0 (.jarr (data.items.map ghItemJson))⟩]⟩, [.searchCode q 10])

/-- The `search_code` case. -/
def ghSearchCode (args : Option (List (String × JsValue))) (net : GhNet) :
    Except Caught InvocationResult × List GhCall :=
  match args with
  | none => (.error (.net (.err "Cannot destructure property query of undefined")), [])
  | some bag => ghSearchCall (ghBuildQuery bag) net

/-- Reshape one directory entry to `{name, type, path, size}`. -/
def ghEntryJson (e : GhDirEntry) : Json :=
  .jobj [("name", .jstr e.name), ("type", .jstr e.type), ("path", .jstr e.path),
    ("size", .jnum e.size)]

/-- Issue the `list_repository_content` `getContent` call: an array
response is reshaped entry-wise, a non-array response throws
`InternalError`. -/
def ghListCall (p : GetContentParams) (net : GhNet) :
    Except Caught InvocationResult × List GhCall :=
  match net.getContent p with
  | .error e => (.error (.net e), [.getContent p])
  | .ok (.arr entries) =>
      (.ok ⟨[⟨"text", renderJson 0 (.jarr (entries.map ghEntryJson))⟩]⟩, [.getContent p])
  | .ok (.obj _) =>
      (.error (.mcp ⟨.InternalError, "Expected directory listing"⟩), [.getContent p])

/-- The `list_repository_content` case: `path` defaults to "" and `ref`
to "main". -/
def ghListContent (args : Option (List (String × JsValue))) (net : GhNet) :
    Except Caught InvocationResult × List GhCall :=
  match args with
  | none => (.error (.net (.err "Cannot destructure property owner of undefined")), [])
  | some bag =>
      ghListCall
        ⟨bag.lookup "owner", bag.lookup "repo",
          some ((bag.lookup "path").getD (.vstr "")),
          (bag.lookup "ref").getD (.vstr "main")⟩ net

/-- The body of the GitHub `CallToolRequestSchema` handler's `try` block:
the `switch` on the tool name, with `MethodNotFound` in the default case. -/
def ghBody (req : McpRequest) (net : GhNet) :
    Except Caught InvocationResult × List GhCall :=
  if req.name = "read_file" then ghReadFile req.arguments net
  else if req.name = "search_code" then ghSearchCode req.arguments net
  else if req.name = "list_repository_content" then ghListContent req.arguments net
  else (.error (.mcp ⟨.MethodNotFound, "Unknown tool: " ++ req.name⟩), [])

/-- The GitHub adapter's `CallToolRequestSchema` handler: `try` body plus
`catch` translation. -/
def ghHandle (req : McpRequest) (net : GhNet) :
    Except McpError InvocationResult × List GhCall :=
  match ghBody req net with
  | (r, calls) => (ghCatch r, calls)

/-- The GitHub adapter's startup: the constructor builds `new Octokit()`
without auth and reads no environment variable, so startup never fails. -/
def githubStartup (_ : String → Option String) : Except String Unit := .ok ()

/-! ### The GitLab adapter (`src/gitlab-server/src/index.ts`) -/

/-- The single tool name the GitLab adapter registers. -/
def gitlabToolNames : List String := ["get_merge_request_content"]

/-- The merge-request metadata consumed from `api.MergeRequests.show`. -/
structure GlMr where
  id : Int
  iid : Int
  title : String
  description : String
  state : String
  source_branch : String
  target_branch : String
deriving DecidableEq, BEq

/-- One diff entry from `api.MergeRequests.allDiffs`. -/
structure GlDiff where
  old_path : String
  new_path : String
  diff : String
deriving DecidableEq, BEq

/-- A recorded outbound Gitbeaker call (`show` or `allDiffs`) with the
validated arguments it was given. -/
inductive GlCall
  | showMr (project_id : String) (merge_request_iid : Int)
  | allDiffs (project_id : String) (merge_request_iid : Int)
deriving DecidableEq, BEq

/-- The Gitbeaker client as an oracle for the two endpoints used
(`MergeRequests.show` and `MergeRequests.allDiffs` in the source). -/
structure GlNet where
  showMr : String → Int → Except NetErr GlMr
  allDiffs : String → Int → Except NetErr (List GlDiff)

/-- The GitLab handler's `catch` block applied to a backing-service error
(`McpError` instances are re-thrown unchanged by the `instanceof` check,
which the embedding realizes by producing them directly). -/
def glCatch (e : NetErr) : McpError :=
  ⟨.InternalError, "GitLab API error: " ++ netErrMessage e⟩

/-- Reshape one diff entry to `{old_path, new_path, diff}`. -/
def glDiffJson (d : GlDiff) : Json :=
  .jobj [("old_path", .jstr d.old_path), ("new_path", .jstr d.new_path),
    ("diff", .jstr d.diff)]

/-- The response object built by the handler: the seven metadata fields
merged with the `changes` array. -/
def glContentJson (mr : GlMr) (diffs : List GlDiff) : Json :=
  .jobj [("id", .jnum mr.id), ("iid", .jnum mr.iid), ("title", .jstr mr.title),
    ("description", .jstr mr.description), ("state", .jstr mr.state),
    ("source_branch", .jstr mr.source_branch), ("target_branch", .jstr mr.target_branch),
    ("changes", .jarr (diffs.map glDiffJson))]

/-- The two sequential backing calls (`show`, then `allDiffs`; the second
is not issued if the first throws) and the JSON reshape. -/
def glCore (pid : String) (iid : Int) (net : GlNet) :
    Except McpError InvocationResult × List GlCall :=
  match net.showMr pid iid with
  | .error e => (.error (glCatch e), [.showMr pid iid])
  | .ok mr =>
    match net.allDiffs pid iid with
    | .error e => (.error (glCatch e), [.showMr pid iid, .allDiffs pid iid])
    | .ok diffs =>
        (.ok ⟨[⟨"text", renderJson 0 (glContentJson mr diffs)⟩]⟩,
          [.showMr pid iid, .allDiffs pid iid])

/-- The GitLab adapter's `CallToolRequestSchema` handler: an absent
argument bag is rejected with `InvalidParams` before the tool name is
examined; then `validateGetMergeRequestContentArgs` checks `project_id` is
a string and `merge_request_iid` is a number (in that order); an unknown
tool name throws `MethodNotFound`. -/
def glHandle (req : McpRequest) (net : GlNet) :
    Except McpError InvocationResult × List GlCall :=
  match req.arguments with
  | none => (.error ⟨.InvalidParams, "No arguments provided"⟩, [])
  | some bag =>
    if req.name = "get_merge_request_content" then
      match bag.lookup "project_id" with
      | some (.vstr pid) =>
        match bag.lookup "merge_request_iid" with
        | some (.vnum iid) => glCore pid iid net
        | _ => (.error ⟨.InvalidParams, "merge_request_iid must be a number"⟩, [])
      | _ => (.error ⟨.InvalidParams, "project_id must be a string"⟩, [])
    else (.error ⟨.MethodNotFound, "Unknown tool: " ++ req.name⟩, [])

/-- The GitLab adapter's configuration built at startup: the token and the
host (the `GITLAB_URL` override, defaulting to "https://gitlab.com" when
the variable is falsy). -/
structure GlConfig where
  token : String
  host : String
deriving DecidableEq, BEq

/-- The GitLab adapter's startup: `process.env.GITLAB_TOKEN` is required
(a falsy value throws before the transport is connected); `GITLAB_URL` is
an optional override with a documented default. -/
def gitlabStartup (env : String → Option String) : Except String GlConfig :=
  if (env "GITLAB_TOKEN").getD "" = "" then
    .error "GITLAB_TOKEN environment variable is required"
  else
    .ok ⟨(env "GITLAB_TOKEN").getD "",
      if (env "GITLAB_URL").getD "" = "" then "https://gitlab.com"
      else (env "GITLAB_URL").getD ""⟩

/-- Does an optional value hold a JavaScript string (`typeof x ===
'string'`)? -/
def isStrVal : Option JsValue → Bool
  | some (.vstr _) => true
  | _ => false

/-- Does an optional value hold a JavaScript number (`typeof x ===
'number'`)? -/
def isNumVal : Option JsValue → Bool
  | some (.vnum _) => true
  | _ => false

/-- Is `needle` a prefix of `hay` (as character lists)? -/
def listHasPrefix : List Char → List Char → Bool
  | [], _ => true
  | _ :: _, [] => false
  | a :: as, b :: bs => a == b && listHasPrefix as bs

/-- Does `hay` contain `needle` as a contiguous substring? -/
def listHasInfix (needle : List Char) : List Char → Bool
  | [] => listHasPrefix needle []
  | b :: bs => listHasPrefix needle (b :: bs) || listHasInfix needle bs

/-- Does the string `hay` contain `needle` as a substring? -/
def containsStr (hay needle : String) : Bool :=
  listHasInfix needle.toList hay.toList

/-- Generic success test on `Except`. -/
def isOk {ε α : Type} : Except ε α → Bool
  | .ok _ => true
  | .error _ => false

/-! ### Concrete oracles used by witnesses and counterexamples -/

/-- A Brave oracle whose every call fails with a thrown non-`Error` value. -/
def bnetFail : BraveCall → Except NetErr BraveSearchResponse :=
  fun _ => .error .nonError

/-- A Brave oracle returning a response with no `web` field. -/
def bnetEmpty : BraveCall → Except NetErr BraveSearchResponse :=
  fun _ => .ok ⟨none⟩

/-- An Octokit oracle whose every call fails. -/
def gnetFail : GhNet :=
  ⟨fun _ => .error .nonError, fun _ => .error .nonError⟩

/-- An Octokit oracle answering `getContent` with a single-file payload
whose base64 content decodes to "hi", and `search.code` with no items. -/
def gnetHi : GhNet :=
  ⟨fun _ => .ok (.obj (some (.vstr "aGk="))), fun _ => .ok ⟨[]⟩⟩

/-- A Gitbeaker oracle whose every call fails. -/
def lnetFail : GlNet :=
  ⟨fun _ _ => .error .nonError, fun _ _ => .error .nonError⟩

/-! ### Helper lemmas about the call logs -/

/-- Once the search handler reaches its `try` block, exactly one GET is
issued whatever the oracle answers. -/
lemma braveSearchCall_snd (call : BraveCall)
    (net : BraveCall → Except NetErr BraveSearchResponse) :
    (braveSearchCall call net).snd = [call] := by
  rcases h : net call with e | resp
  · simp [braveSearchCall, h]
  · rcases h2 : resp.web.bind BraveWeb.results with _ | ls
    · simp [braveSearchCall, h, h2]
    · rcases ls with _ | ⟨r, rs⟩ <;> simp [braveSearchCall, h, h2]

/-- The `read_file` case issues exactly its one `getContent` call. -/
lemma ghReadFileCall_snd (p : GetContentParams) (net : GhNet) :
    (ghReadFileCall p net).snd = [.getContent p] := by
  rcases h : net.getContent p with e | data
  · simp [ghReadFileCall, h]
  · rcases data with c | entries
    · rcases c with _ | v
      · simp [ghReadFileCall, h]
      · rcases v with s | n <;> simp [ghReadFileCall, h]
    · simp [ghReadFileCall, h]

/-- The `search_code` case issues exactly its one `search.code` call. -/
lemma ghSearchCall_snd (q : Option JsValue) (net : GhNet) :
    (ghSearchCall q net).snd = [.searchCode q 10] := by
  rcases h : net.searchCode q with e | data <;> simp [ghSearchCall, h]

/-- The `list_repository_content` case issues exactly its one `getContent`
call. -/
lemma ghListCall_snd (p : GetContentParams) (net : GhNet) :
    (ghListCall p net).snd = [.getContent p] := by
  rcases h : net.getContent p with e | data
  · simp [ghListCall, h]
  · rcases data with c | entries <;> simp [ghListCall, h]

/-! ### Claim C1 — unknown tool names -/

/-- Claim C1 counterexample: on the GitLab adapter an invocation with an
unknown tool name and an absent argument bag fails with `InvalidParams`
("No arguments provided"), not with `MethodNotFound` naming the tool as
the claim states (no network call is issued either way). -/
theorem C1_cex :
    glHandle ⟨"bogus", none⟩ lnetFail
      = (.error ⟨.InvalidParams, "No arguments provided"⟩, [])
    ∧ (ErrorCode.InvalidParams == ErrorCode.MethodNotFound) = false := by
  exact ⟨rfl, rfl⟩

/-- Claim C1 as amended: for every tool name outside an adapter's registry
and every argument bag, no network call is issued and: the Brave adapter
fails with `MethodNotFound` and the fixed message "Unknown tool" (not
naming the tool); the GitHub adapter fails with `MethodNotFound` naming
the tool; the GitLab adapter fails with `MethodNotFound` naming the tool
when an argument bag is present, but with `InvalidParams` ("No arguments
provided") when the bag is absent. -/
theorem C1_amended (name : String) (args : Option (List (String × JsValue)))
    (bnet : BraveCall → Except NetErr BraveSearchResponse) (gnet : GhNet) (lnet : GlNet)
    (hb : name ∉ braveToolNames) (hg : name ∉ githubToolNames)
    (hl : name ∉ gitlabToolNames) :
    braveHandle ⟨name, args⟩ bnet = (.error ⟨.MethodNotFound, "Unknown tool"⟩, [])
    ∧ ghHandle ⟨name, args⟩ gnet
        = (.error ⟨.MethodNotFound, "Unknown tool: " ++ name⟩, [])
    ∧ glHandle ⟨name, args⟩ lnet
        = (if args = none then (.error ⟨.InvalidParams, "No arguments provided"⟩, [])
           else (.error ⟨.MethodNotFound, "Unknown tool: " ++ name⟩, [])) := by
  have hb' : ¬(name = "search") := by simpa [braveToolNames] using hb
  have hg' : ¬(name = "read_file") ∧ ¬(name = "search_code")
      ∧ ¬(name = "list_repository_content") := by
    have := hg
    simp only [githubToolNames, List.mem_cons, List.not_mem_nil, or_false] at this
    tauto
  have hl' : ¬(name = "get_merge_request_content") := by
    simpa [gitlabToolNames] using hl
  refine ⟨?_, ?_, ?_⟩
  · simp [braveHandle, hb']
  · simp [ghHandle, ghBody, ghCatch, hg'.1, hg'.2.1, hg'.2.2]
  · rcases args with _ | bag
    · simp [glHandle]
    · simp [glHandle, hl']

/-- Concrete instance of the amended claim C1: the unknown tool
"frobnicate" with an empty (but present) argument bag. -/
theorem C1_amended_witness :
    braveHandle ⟨"frobnicate", some []⟩ bnetFail
      = (.error ⟨.MethodNotFound, "Unknown tool"⟩, [])
    ∧ ghHandle ⟨"frobnicate", some []⟩ gnetFail
        = (.error ⟨.MethodNotFound, "Unknown tool: " ++ "frobnicate"⟩, [])
    ∧ glHandle ⟨"frobnicate", some []⟩ lnetFail
        = (if (some [] : Option (List (String × JsValue))) = none
           then (.error ⟨.InvalidParams, "No arguments provided"⟩, [])
           else (.error ⟨.MethodNotFound, "Unknown tool: " ++ "frobnicate"⟩, [])) :=
  C1_amended "frobnicate" (some []) bnetFail gnetFail lnetFail
    (by decide) (by decide) (by decide)

/-! ### Claim C2 — required-argument omissions -/

/-- Claim C2 counterexample: the GitHub adapter's `read_file` with an
argument bag omitting the required `owner` does not fail with
`InvalidParams` — the backing `getContent` call is issued with `owner`
undefined and the invocation succeeds. -/
theorem C2_cex :
    ghHandle ⟨"read_file", some [("repo", .vstr "r"), ("path", .vstr "p")]⟩ gnetHi
      = (.ok ⟨[⟨"text", "hi"⟩]⟩,
         [.getContent ⟨none, some (.vstr "r"), some (.vstr "p"), .vstr "main"⟩]) := by
  exact rfl

/-- Claim C2 as amended: only the GitLab adapter validates its required
arguments — a non-string `project_id` or non-number `merge_request_iid`
fails with `InvalidParams` naming the offending field before any network
call.  The Brave adapter coerces an omitted `query` to the truthy string
"undefined" and issues the GET with it; the GitHub adapter performs no
validation and issues the backing call with omitted fields undefined. -/
theorem C2_amended (bag1 bag2 bagB bagG : List (String × JsValue)) (pid : String)
    (lnet : GlNet) (bnet : BraveCall → Except NetErr BraveSearchResponse) (gnet : GhNet)
    (h1 : isStrVal (bag1.lookup "project_id") = false)
    (h2 : bag2.lookup "project_id" = some (.vstr pid))
    (h3 : isNumVal (bag2.lookup "merge_request_iid") = false)
    (h4 : bagB.lookup "query" = none)
    (h5 : bagG.lookup "owner" = none) :
    glHandle ⟨"get_merge_request_content", some bag1⟩ lnet
      = (.error ⟨.InvalidParams, "project_id must be a string"⟩, [])
    ∧ glHandle ⟨"get_merge_request_content", some bag2⟩ lnet
        = (.error ⟨.InvalidParams, "merge_request_iid must be a number"⟩, [])
    ∧ (braveHandle ⟨"search", some bagB⟩ bnet).snd
        = [⟨"undefined", orFive (jsToNumber (bagB.lookup "count"))⟩]
    ∧ (ghHandle ⟨"read_file", some bagG⟩ gnet).snd
        = [.getContent ⟨none, bagG.lookup "repo", bagG.lookup "path",
            (bagG.lookup "ref").getD (.vstr "main")⟩] := by
  refine ⟨?_, ?_, ?_, ?_⟩
  · rcases hv : bag1.lookup "project_id" with _ | v
    · simp [glHandle, hv]
    · rcases v with s | n
      · rw [hv] at h1; simp [isStrVal] at h1
      · simp [glHandle, hv]
  · rcases hv : bag2.lookup "merge_request_iid" with _ | v
    · simp [glHandle, h2, hv]
    · rcases v with s | n
      · simp [glHandle, h2, hv]
      · rw [hv] at h3; simp [isNumVal] at h3
  · simp only [braveHandle, argGet, if_pos rfl, h4]
    simp [jsToString, braveSearchCall_snd]
  · simp only [ghHandle, ghBody, if_pos rfl, ghReadFile, h5]
    rcases hcall : ghReadFileCall ⟨none, bagG.lookup "repo", bagG.lookup "path",
        (bagG.lookup "ref").getD (.vstr "main")⟩ gnet with ⟨r, calls⟩
    have := ghReadFileCall_snd ⟨none, bagG.lookup "repo", bagG.lookup "path",
        (bagG.lookup "ref").getD (.vstr "main")⟩ gnet
    rw [hcall] at this
    simpa using this

/-- Concrete instance of the amended claim C2. -/
theorem C2_amended_witness :
    glHandle ⟨"get_merge_request_content", some [("merge_request_iid", .vnum 1)]⟩ lnetFail
      = (.error ⟨.InvalidParams, "project_id must be a string"⟩, [])
    ∧ glHandle ⟨"get_merge_request_content",
          some [("project_id", .vstr "p"), ("merge_request_iid", .vstr "1")]⟩ lnetFail
        = (.error ⟨.InvalidParams, "merge_request_iid must be a number"⟩, [])
    ∧ (braveHandle ⟨"search", some [("count", .vnum 3)]⟩ bnetFail).snd
        = [⟨"undefined", orFive (jsToNumber ([(("count" : String), JsValue.vnum 3)].lookup "count"))⟩]
    ∧ (ghHandle ⟨"read_file", some [("repo", .vstr "r"), ("path", .vstr "p")]⟩ gnetHi).snd
        = [.getContent ⟨none,
            [(("repo" : String), JsValue.vstr "r"), ("path", JsValue.vstr "p")].lookup "repo",
            [(("repo" : String), JsValue.vstr "r"), ("path", JsValue.vstr "p")].lookup "path",
            ([(("repo" : String), JsValue.vstr "r"), ("path", JsValue.vstr "p")].lookup "ref").getD
              (.vstr "main")⟩] :=
  C2_amended [("merge_request_iid", .vnum 1)]
    [("project_id", .vstr "p"), ("merge_request_iid", .vstr "1")]
    [("count", .vnum 3)] [("repo", .vstr "r"), ("path", .vstr "p")] "p"
    lnetFail bnetFail gnetHi (by decide) (by decide) (by decide) (by decide) (by decide)

/-! ### Claim C4 — credential environment variables at startup -/

/-- Claim C4 counterexample: with every environment variable absent, the
GitHub adapter's startup still succeeds — its constructor builds an
unauthenticated Octokit client and requires no credential variable, so it
is not the case that each of the three adapters requires one. -/
theorem C4_cex : githubStartup (fun _ => none) = .ok () := by
  exact rfl

/-- Claim C4 as amended: the Brave and GitLab adapters each require
exactly one credential variable (`BRAVE_API_KEY`, `GITLAB_TOKEN`): startup
succeeds precisely when the variable is present and non-empty, and its
outcome depends on no other variable.  The GitHub adapter requires none —
its startup always succeeds. -/
theorem C4_amended (env envB envG : String → Option String)
    (hB : env "BRAVE_API_KEY" = envB "BRAVE_API_KEY")
    (hG : env "GITLAB_TOKEN" = envG "GITLAB_TOKEN") :
    isOk (braveStartup env) = ((env "BRAVE_API_KEY").getD "" != "")
    ∧ braveStartup env = braveStartup envB
    ∧ isOk (gitlabStartup env) = ((env "GITLAB_TOKEN").getD "" != "")
    ∧ isOk (gitlabStartup env) = isOk (gitlabStartup envG)
    ∧ githubStartup env = .ok () := by
  refine ⟨?_, ?_, ?_, ?_, rfl⟩
  · by_cases h : (env "BRAVE_API_KEY").getD "" = "" <;>
      simp [braveStartup, isOk, h, bne]
  · simp [braveStartup, hB]
  · by_cases h : (env "GITLAB_TOKEN").getD "" = "" <;>
      simp [gitlabStartup, isOk, h, bne]
  · by_cases h : (env "GITLAB_TOKEN").getD "" = "" <;>
      simp [gitlabStartup, isOk, h, ← hG]

/-- Concrete instance of the amended claim C4: an environment holding only
the two credential variables. -/
theorem C4_amended_witness :
    isOk (braveStartup (fun v => if v = "BRAVE_API_KEY" then some "k" else none))
      = (((fun v => if v = "BRAVE_API_KEY" then some "k" else none) "BRAVE_API_KEY").getD "" != "")
    ∧ braveStartup (fun v => if v = "BRAVE_API_KEY" then some "k" else none)
        = braveStartup (fun _ => some "k")
    ∧ isOk (gitlabStartup (fun v => if v = "BRAVE_API_KEY" then some "k" else none))
        = (((fun v => if v = "BRAVE_API_KEY" then some "k" else none) "GITLAB_TOKEN").getD "" != "")
    ∧ isOk (gitlabStartup (fun v => if v = "BRAVE_API_KEY" then some "k" else none))
        = isOk (gitlabStartup (fun _ => none))
    ∧ githubStartup (fun v => if v = "BRAVE_API_KEY" then some "k" else none) = .ok () :=
  C4_amended (fun v => if v = "BRAVE_API_KEY" then some "k" else none)
    (fun _ => some "k") (fun _ => none) (by decide) (by decide)

/-! ### Claim C3 — error wrapping and pass-through -/

/-- Claim C3 counterexample: on the Brave adapter a backing 401 axios
error (a non-`McpError` whose message is "Request failed with status code
401") is wrapped as `InternalError` with the fixed guidance message, which
does not carry the original error's message. -/
theorem C3_cex :
    (braveHandle ⟨"search", some [("query", .vstr "x")]⟩
        (fun _ => .error (.axios (some 401) "Request failed with status code 401"))).fst
      = .error ⟨.InternalError, braveAuthMsg⟩
    ∧ containsStr braveAuthMsg "Request failed with status code 401" = false := by
  exact ⟨rfl, by decide⟩

/-- Claim C3 as amended: `McpError`s raised during invocation are
re-raised unchanged with no double-wrapping (an `InternalError` thrown
inside the GitHub handler's `try` body reaches the caller verbatim), and
every backing-service error is wrapped as `InternalError` carrying the
original error's message behind an adapter-specific prefix — except that
the Brave adapter replaces the message of a 401 axios error with a fixed
guidance message. -/
theorem C3_amended (e : NetErr) :
    (ghHandle ⟨"read_file",
        some [("owner", .vstr "o"), ("repo", .vstr "r"), ("path", .vstr "p")]⟩
        ⟨fun _ => .error e, fun _ => .error e⟩).fst
      = .error ⟨.InternalError, "GitHub API error: " ++ netErrMessage e⟩
    ∧ (ghHandle ⟨"read_file",
          some [("owner", .vstr "o"), ("repo", .vstr "r"), ("path", .vstr "p")]⟩
          ⟨fun _ => .ok (.arr []), fun _ => .error e⟩).fst
        = .error ⟨.InternalError, "Invalid response format from GitHub API"⟩
    ∧ (glHandle ⟨"get_merge_request_content",
          some [("project_id", .vstr "p"), ("merge_request_iid", .vnum 1)]⟩
          ⟨fun _ _ => .error e, fun _ _ => .error e⟩).fst
        = .error ⟨.InternalError, "GitLab API error: " ++ netErrMessage e⟩
    ∧ (braveHandle ⟨"search", some [("query", .vstr "x")]⟩ (fun _ => .error e)).fst
        = .error (if isAxios401 e then ⟨.InternalError, braveAuthMsg⟩
            else ⟨.InternalError, "Search failed: " ++ netErrMessage e⟩) := by
  exact ⟨rfl, rfl, rfl, rfl⟩

/-! ### Claim C5 — web-search reshape -/

/-- Claim C5 confirmed: for a valid query, a backing response with zero
results (an empty, absent, or missing `web.results`) yields exactly the
literal text "No results found.", and a backing response with N results
yields the JSON rendering of an array of length N whose elements carry
`title`, `url` and `description` verbatim, in order. -/
theorem C5_theorem (q : String) (rs : List BraveSearchResult) (hq : q ≠ "") :
    (braveHandle ⟨"search", some [("query", .vstr q)]⟩
        (fun _ => .ok ⟨some ⟨some rs⟩⟩)).fst
      = .ok ⟨[⟨"text",
          if rs.isEmpty then "No results found."
          else renderJson 0 (.jarr (rs.map braveResultJson))⟩]⟩
    ∧ (braveHandle ⟨"search", some [("query", .vstr q)]⟩ (fun _ => .ok ⟨none⟩)).fst
        = .ok ⟨[⟨"text", "No results found."⟩]⟩
    ∧ (braveHandle ⟨"search", some [("query", .vstr q)]⟩
          (fun _ => .ok ⟨some ⟨none⟩⟩)).fst
        = .ok ⟨[⟨"text", "No results found."⟩]⟩
    ∧ (rs.map braveResultJson).length = rs.length
    ∧ rs.map braveResultJson = rs.map (fun r =>
        .jobj [("title", .jstr r.title), ("url", .jstr r.url),
          ("description", .jstr r.description)]) := by
  refine ⟨?_, ?_, ?_, by simp, by simp [braveResultJson]⟩
  · rw [show braveHandle ⟨"search", some [("query", .vstr q)]⟩
          (fun _ => .ok ⟨some ⟨some rs⟩⟩)
        = (if q = "" then (.error ⟨.InvalidParams, "Search query is required"⟩, [])
           else braveSearchCall ⟨q, 5⟩ (fun _ => .ok ⟨some ⟨some rs⟩⟩)) from rfl,
      if_neg hq]
    rcases rs with _ | ⟨r, rest⟩ <;> rfl
  · rw [show braveHandle ⟨"search", some [("query", .vstr q)]⟩ (fun _ => .ok ⟨none⟩)
        = (if q = "" then (.error ⟨.InvalidParams, "Search query is required"⟩, [])
           else braveSearchCall ⟨q, 5⟩ (fun _ => .ok ⟨none⟩)) from rfl,
      if_neg hq]
    rfl
  · rw [show braveHandle ⟨"search", some [("query", .vstr q)]⟩ (fun _ => .ok ⟨some ⟨none⟩⟩)
        = (if q = "" then (.error ⟨.InvalidParams, "Search query is required"⟩, [])
           else braveSearchCall ⟨q, 5⟩ (fun _ => .ok ⟨some ⟨none⟩⟩)) from rfl,
      if_neg hq]
    rfl

/-- Concrete instance of claim C5: the query "lean" with two backing
results and with zero backing results. -/
theorem C5_theorem_witness :
    (braveHandle ⟨"search", some [("query", .vstr "lean")]⟩
        (fun _ => .ok ⟨some ⟨some [⟨"t1", "u1", "d1"⟩, ⟨"t2", "u2", "d2"⟩]⟩⟩)).fst
      = .ok ⟨[⟨"text",
          if ([⟨"t1", "u1", "d1"⟩, ⟨"t2", "u2", "d2"⟩] : List BraveSearchResult).isEmpty
          then "No results found."
          else renderJson 0 (.jarr (([⟨"t1", "u1", "d1"⟩, ⟨"t2", "u2", "d2"⟩] :
            List BraveSearchResult).map braveResultJson))⟩]⟩
    ∧ (braveHandle ⟨"search", some [("query", .vstr "lean")]⟩ (fun _ => .ok ⟨none⟩)).fst
        = .ok ⟨[⟨"text", "No results found."⟩]⟩
    ∧ (braveHandle ⟨"search", some [("query", .vstr "lean")]⟩
          (fun _ => .ok ⟨some ⟨none⟩⟩)).fst
        = .ok ⟨[⟨"text", "No results found."⟩]⟩
    ∧ (([⟨"t1", "u1", "d1"⟩, ⟨"t2", "u2", "d2"⟩] : List BraveSearchResult).map
        braveResultJson).length
        = ([⟨"t1", "u1", "d1"⟩, ⟨"t2", "u2", "d2"⟩] : List BraveSearchResult).length
    ∧ ([⟨"t1", "u1", "d1"⟩, ⟨"t2", "u2", "d2"⟩] : List BraveSearchResult).map braveResultJson
        = ([⟨"t1", "u1", "d1"⟩, ⟨"t2", "u2", "d2"⟩] : List BraveSearchResult).map (fun r =>
            .jobj [("title", .jstr r.title), ("url", .jstr r.url),
              ("description", .jstr r.description)]) :=
  C5_theorem "lean" [⟨"t1", "u1", "d1"⟩, ⟨"t2", "u2", "d2"⟩] (by decide)

/-! ### Claim C6 — read_file decoding -/

/-- Claim C6 confirmed: when the backing `getContent` response is a
single-file payload with string `content`, the returned text is exactly
its base64-to-UTF-8 decoding; when it is a directory listing or an object
without string content, the call fails with `InternalError`.  The final
conjunct evaluates the embedded decoder on a concrete payload. -/
theorem C6_theorem (c : String) (entries : List GhDirEntry) :
    (ghHandle ⟨"read_file",
        some [("owner", .vstr "o"), ("repo", .vstr "r"), ("path", .vstr "p")]⟩
        ⟨fun _ => .ok (.obj (some (.vstr c))), fun _ => .error .nonError⟩).fst
      = .ok ⟨[⟨"text", bufferBase64Utf8 c⟩]⟩
    ∧ (ghHandle ⟨"read_file",
          some [("owner", .vstr "o"), ("repo", .vstr "r"), ("path", .vstr "p")]⟩
          ⟨fun _ => .ok (.arr entries), fun _ => .error .nonError⟩).fst
        = .error ⟨.InternalError, "Invalid response format from GitHub API"⟩
    ∧ (ghHandle ⟨"read_file",
          some [("owner", .vstr "o"), ("repo", .vstr "r"), ("path", .vstr "p")]⟩
          ⟨fun _ => .ok (.obj none), fun _ => .error .nonError⟩).fst
        = .error ⟨.InternalError, "Invalid response format from GitHub API"⟩
    ∧ bufferBase64Utf8 "aGVsbG8gd29ybGQ=" = "hello world" := by
  exact ⟨rfl, rfl, rfl, by decide⟩

/-! ### Claim C7 — merge-request content reshape -/

/-- Claim C7 confirmed: for validated arguments, the handler issues the
two backing calls in order and returns the JSON merge of the seven
metadata fields with a `changes` array of exactly one entry per backing
diff, carrying `old_path`, `new_path` and `diff` in order. -/
theorem C7_theorem (mr : GlMr) (diffs : List GlDiff) :
    glHandle ⟨"get_merge_request_content",
        some [("project_id", .vstr "p"), ("merge_request_iid", .vnum 7)]⟩
      ⟨fun _ _ => .ok mr, fun _ _ => .ok diffs⟩
      = (.ok ⟨[⟨"text", renderJson 0 (glContentJson mr diffs)⟩]⟩,
         [.showMr "p" 7, .allDiffs "p" 7])
    ∧ glContentJson mr diffs
        = .jobj [("id", .jnum mr.id), ("iid", .jnum mr.iid), ("title", .jstr mr.title),
            ("description", .jstr mr.description), ("state", .jstr mr.state),
            ("source_branch", .jstr mr.source_branch),
            ("target_branch", .jstr mr.target_branch),
            ("changes", .jarr (diffs.map glDiffJson))]
    ∧ (diffs.map glDiffJson).length = diffs.length
    ∧ diffs.map glDiffJson = diffs.map (fun d =>
        .jobj [("old_path", .jstr d.old_path), ("new_path", .jstr d.new_path),
          ("diff", .jstr d.diff)]) := by
  exact ⟨rfl, rfl, by simp, by simp [glDiffJson]⟩

/-! ### Claim C8 — code-search query building -/

/-- An Octokit oracle failing `getContent` and answering `search.code`
with no items. -/
def gnetSearchEmpty : GhNet :=
  ⟨fun _ => .error .nonError, fun _ => .ok ⟨[]⟩⟩

/-- Claim C8 counterexample: with `language` supplied as the empty string,
the query sent to the code-search endpoint is the bare user query "x" —
no ` language:` qualifier is appended, because the handler tests
JavaScript truthiness rather than presence. -/
theorem C8_cex :
    (ghHandle ⟨"search_code", some [("query", .vstr "x"), ("language", .vstr "")]⟩
        gnetSearchEmpty).snd
      = [.searchCode (some (.vstr "x")) 10]
    ∧ (("x" : String) == "x language:") = false := by
  exact ⟨rfl, rfl⟩

/-- Claim C8 as amended: the query string sent to the code-search endpoint
is the user query augmented with ` language:<language>` when `language` is
supplied and non-empty (truthy), with ` repo:<owner>/<repo>` when both
`owner` and `repo` are supplied non-empty, and with ` user:<owner>` when
`owner` is supplied non-empty but `repo` is not; a supplied empty string
behaves like an absent argument.  Each returned match carries exactly the
repository full name, path and url. -/
theorem C8_amended (q lang ow rp : String) (items : List GhSearchItem) :
    ghHandle ⟨"search_code", some [("query", .vstr q), ("language", .vstr lang),
        ("owner", .vstr ow), ("repo", .vstr rp)]⟩
      ⟨fun _ => .error .nonError, fun _ => .ok ⟨items⟩⟩
      = (.ok ⟨[⟨"text", renderJson 0 (.jarr (items.map ghItemJson))⟩]⟩,
         [.searchCode (some (.vstr (
           if ow ≠ "" ∧ rp ≠ "" then
             (if lang ≠ "" then q ++ " language:" ++ lang else q) ++ " repo:" ++ ow ++ "/" ++ rp
           else if ow ≠ "" then
             (if lang ≠ "" then q ++ " language:" ++ lang else q) ++ " user:" ++ ow
           else if lang ≠ "" then q ++ " language:" ++ lang else q))) 10])
    ∧ ghHandle ⟨"search_code", some [("query", .vstr q)]⟩
        ⟨fun _ => .error .nonError, fun _ => .ok ⟨items⟩⟩
      = (.ok ⟨[⟨"text", renderJson 0 (.jarr (items.map ghItemJson))⟩]⟩,
         [.searchCode (some (.vstr q)) 10])
    ∧ items.map ghItemJson = items.map (fun item =>
        .jobj [("repository", .jstr item.repository.full_name),
          ("path", .jstr item.path), ("url", .jstr item.html_url)]) := by
  refine ⟨?_, rfl, by simp [ghItemJson]⟩
  have hq2 : ghAddOwnerRepo (ghAddLanguage (some (.vstr q)) (some (.vstr lang)))
      (some (.vstr ow)) (some (.vstr rp))
      = some (.vstr (
          if ow ≠ "" ∧ rp ≠ "" then
            (if lang ≠ "" then q ++ " language:" ++ lang else q) ++ " repo:" ++ ow ++ "/" ++ rp
          else if ow ≠ "" then
            (if lang ≠ "" then q ++ " language:" ++ lang else q) ++ " user:" ++ ow
          else if lang ≠ "" then q ++ " language:" ++ lang else q)) := by
    by_cases hl : lang = "" <;> by_cases ho : ow = "" <;> by_cases hr : rp = "" <;>
      simp [ghAddLanguage, ghAddOwnerRepo, jsTruthy, jsToString, hl, ho, hr]
  rw [show ghHandle ⟨"search_code", some [("query", .vstr q), ("language", .vstr lang),
        ("owner", .vstr ow), ("repo", .vstr rp)]⟩
        ⟨fun _ => .error .nonError, fun _ => .ok ⟨items⟩⟩
      = (.ok ⟨[⟨"text", renderJson 0 (.jarr (items.map ghItemJson))⟩]⟩,
         [.searchCode (ghAddOwnerRepo (ghAddLanguage (some (.vstr q)) (some (.vstr lang)))
           (some (.vstr ow)) (some (.vstr rp))) 10]) from rfl, hq2]

/-! ### Claim C9 — result-count bounds -/

/-- Claim C9 counterexample: a supplied `count` of 25, outside the
schema's declared maximum of 20, is neither rejected nor coerced — the GET
is issued with `count: 25` unchanged. -/
theorem C9_cex :
    braveHandle ⟨"search", some [("query", .vstr "x"), ("count", .vnum 25)]⟩ bnetEmpty
      = (.ok ⟨[⟨"text", "No results found."⟩]⟩, [⟨"x", 25⟩])
    ∧ braveCountSchema.maximum = some 20
    ∧ decide ((20 : Int) < 25) = true := by
  exact ⟨rfl, rfl, rfl⟩

/-- A nonzero count passes the `|| 5` fallback unchanged. -/
lemma orFive_some_ne (n : Int) (hn : n ≠ 0) : orFive (some n) = n := by
  rcases n with m | m
  · rcases m with _ | m
    · exact absurd rfl hn
    · rfl
  · rfl

/-- Claim C9 as amended: the schema declares `count` with minimum 1,
maximum 20 and default 5, and an omitted, non-numeric, or zero `count`
falls back to 5; but any other supplied numeric value — in particular one
outside the declared 1–20 bounds — is forwarded to the backing call
unchanged, with no bounds check. -/
theorem C9_amended (n : Int) (hn : n ≠ 0)
    (bnet : BraveCall → Except NetErr BraveSearchResponse) :
    braveCountSchema = ⟨some 1, some 20, some 5⟩
    ∧ (braveHandle ⟨"search", some [("query", .vstr "x")]⟩ bnet).snd = [⟨"x", 5⟩]
    ∧ (braveHandle ⟨"search", some [("query", .vstr "x"), ("count", .vstr "abc")]⟩ bnet).snd
        = [⟨"x", 5⟩]
    ∧ (braveHandle ⟨"search", some [("query", .vstr "x"), ("count", .vnum 0)]⟩ bnet).snd
        = [⟨"x", 5⟩]
    ∧ (braveHandle ⟨"search", some [("query", .vstr "x"), ("count", .vnum n)]⟩ bnet).snd
        = [⟨"x", n⟩] := by
  refine ⟨rfl, ?_, ?_, ?_, ?_⟩
  · rw [show (braveHandle ⟨"search", some [("query", .vstr "x")]⟩ bnet).snd
        = (braveSearchCall ⟨"x", 5⟩ bnet).snd from rfl, braveSearchCall_snd]
  · rw [show (braveHandle ⟨"search", some [("query", .vstr "x"), ("count", .vstr "abc")]⟩
          bnet).snd
        = (braveSearchCall ⟨"x", 5⟩ bnet).snd from rfl, braveSearchCall_snd]
  · rw [show (braveHandle ⟨"search", some [("query", .vstr "x"), ("count", .vnum 0)]⟩
          bnet).snd
        = (braveSearchCall ⟨"x", 5⟩ bnet).snd from rfl, braveSearchCall_snd]
  · rw [show (braveHandle ⟨"search", some [("query", .vstr "x"), ("count", .vnum n)]⟩
          bnet).snd
        = (braveSearchCall ⟨"x", orFive (some n)⟩ bnet).snd from rfl,
      orFive_some_ne n hn, braveSearchCall_snd]

/-- Concrete instance of the amended claim C9: the out-of-bounds count 25
is forwarded unchanged. -/
theorem C9_amended_witness :
    braveCountSchema = ⟨some 1, some 20, some 5⟩
    ∧ (braveHandle ⟨"search", some [("query", .vstr "x")]⟩ bnetFail).snd = [⟨"x", 5⟩]
    ∧ (braveHandle ⟨"search", some [("query", .vstr "x"), ("count", .vstr "abc")]⟩
        bnetFail).snd = [⟨"x", 5⟩]
    ∧ (braveHandle ⟨"search", some [("query", .vstr "x"), ("count", .vnum 0)]⟩
        bnetFail).snd = [⟨"x", 5⟩]
    ∧ (braveHandle ⟨"search", some [("query", .vstr "x"), ("count", .vnum 25)]⟩
        bnetFail).snd = [⟨"x", 25⟩] :=
  C9_amended 25 (by decide) bnetFail

/-! ### Claim C10 — success results are a single text element -/

/-- A result whose content types map to the singleton ["text"] has exactly
one content element. -/
lemma contentLenOne (res : InvocationResult)
    (h : res.content.map ContentItem.type = ["text"]) : res.content.length = 1 := by
  have := congrArg List.length h
  simpa using this

/-- Every success of the search handler's `try` body is one text element. -/
lemma braveSearchCall_ok (call : BraveCall)
    (net : BraveCall → Except NetErr BraveSearchResponse) (res : InvocationResult)
    (h : (braveSearchCall call net).fst = .ok res) :
    res.content.map ContentItem.type = ["text"] := by
  rcases hn : net call with e | resp
  · simp [braveSearchCall, hn] at h
  · rcases h2 : resp.web.bind BraveWeb.results with _ | ls
    · simp [braveSearchCall, hn, h2] at h
      simp [← h]
    · rcases ls with _ | ⟨r, rs⟩
      · simp [braveSearchCall, hn, h2] at h
        simp [← h]
      · simp [braveSearchCall, hn, h2] at h
        simp [← h]

/-- Every success of the whole search handler is one text element. -/
lemma braveHandle_ok (req : McpRequest)
    (net : BraveCall → Except NetErr BraveSearchResponse) (res : InvocationResult)
    (h : (braveHandle req net).fst = .ok res) :
    res.content.map ContentItem.type = ["text"] := by
  rcases req with ⟨name, args⟩
  by_cases hname : name = "search"
  · by_cases hq : jsToString (argGet args "query") = ""
    · simp [braveHandle, hname, hq] at h
    · refine braveSearchCall_ok ⟨jsToString (argGet args "query"),
        orFive (jsToNumber (argGet args "count"))⟩ net res ?_
      simpa [braveHandle, hname, hq] using h
  · simp [braveHandle, hname] at h

/-- Translating the `catch` result back: a successful `ghCatch` comes from
a successful body. -/
lemma ghCatch_ok (x : Except Caught InvocationResult) (res : InvocationResult)
    (h : ghCatch x = .ok res) : x = .ok res := by
  rcases x with c | r
  · rcases c with e | e <;> simp [ghCatch] at h
  · simpa [ghCatch] using h

/-- Every success of the `read_file` call-and-decode is one text element. -/
lemma ghReadFileCall_ok (p : GetContentParams) (net : GhNet) (res : InvocationResult)
    (h : (ghReadFileCall p net).fst = .ok res) :
    res.content.map ContentItem.type = ["text"] := by
  rcases hn : net.getContent p with e | data
  · simp [ghReadFileCall, hn] at h
  · rcases data with c | entries
    · rcases c with _ | v
      · simp [ghReadFileCall, hn] at h
      · rcases v with s | m
        · simp [ghReadFileCall, hn] at h
          simp [← h]
        · simp [ghReadFileCall, hn] at h
    · simp [ghReadFileCall, hn] at h

/-- Every success of the `search_code` call is one text element. -/
lemma ghSearchCall_ok (q : Option JsValue) (net : GhNet) (res : InvocationResult)
    (h : (ghSearchCall q net).fst = .ok res) :
    res.content.map ContentItem.type = ["text"] := by
  rcases hn : net.searchCode q with e | data
  · simp [ghSearchCall, hn] at h
  · simp [ghSearchCall, hn] at h
    simp [← h]

/-- Every success of the `list_repository_content` call is one text
element. -/
lemma ghListCall_ok (p : GetContentParams) (net : GhNet) (res : InvocationResult)
    (h : (ghListCall p net).fst = .ok res) :
    res.content.map ContentItem.type = ["text"] := by
  rcases hn : net.getContent p with e | data
  · simp [ghListCall, hn] at h
  · rcases data with c | entries
    · simp [ghListCall, hn] at h
    · simp [ghListCall, hn] at h
      simp [← h]

/-- Every success of the whole GitHub handler is one text element. -/
lemma ghHandle_ok (req : McpRequest) (net : GhNet) (res : InvocationResult)
    (h : (ghHandle req net).fst = .ok res) :
    res.content.map ContentItem.type = ["text"] := by
  have hb : (ghBody req net).fst = .ok res := by
    have h2 : ghCatch (ghBody req net).fst = .ok res := by
      unfold ghHandle at h
      rcases hbody : ghBody req net with ⟨r, calls⟩
      rw [hbody] at h
      simpa using h
    exact ghCatch_ok _ res h2
  clear h
  rcases req with ⟨name, args⟩
  by_cases h1 : name = "read_file"
  · rcases args with _ | bag
    · simp [ghBody, h1, ghReadFile] at hb
    · refine ghReadFileCall_ok ⟨bag.lookup "owner", bag.lookup "repo", bag.lookup "path",
        (bag.lookup "ref").getD (.vstr "main")⟩ net res ?_
      simpa [ghBody, h1, ghReadFile] using hb
  · by_cases h2 : name = "search_code"
    · rcases args with _ | bag
      · simp [ghBody, h1, h2, ghSearchCode] at hb
      · refine ghSearchCall_ok (ghBuildQuery bag) net res ?_
        simpa [ghBody, h1, h2, ghSearchCode] using hb
    · by_cases h3 : name = "list_repository_content"
      · rcases args with _ | bag
        · simp [ghBody, h1, h2, h3, ghListContent] at hb
        · refine ghListCall_ok ⟨bag.lookup "owner", bag.lookup "repo",
            some ((bag.lookup "path").getD (.vstr "")),
            (bag.lookup "ref").getD (.vstr "main")⟩ net res ?_
          simpa [ghBody, h1, h2, h3, ghListContent] using hb
      · simp [ghBody, h1, h2, h3] at hb

/-- Every success of the GitLab two-call core is one text element. -/
lemma glCore_ok (pid : String) (iid : Int) (net : GlNet) (res : InvocationResult)
    (h : (glCore pid iid net).fst = .ok res) :
    res.content.map ContentItem.type = ["text"] := by
  rcases hs : net.showMr pid iid with e | mr
  · simp [glCore, hs] at h
  · rcases hd : net.allDiffs pid iid with e | diffs
    · simp [glCore, hs, hd] at h
    · simp [glCore, hs, hd] at h
      simp [← h]

/-- Every success of the whole GitLab handler is one text element. -/
lemma glHandle_ok (req : McpRequest) (net : GlNet) (res : InvocationResult)
    (h : (glHandle req net).fst = .ok res) :
    res.content.map ContentItem.type = ["text"] := by
  rcases req with ⟨name, args⟩
  rcases args with _ | bag
  · simp [glHandle] at h
  · by_cases hname : name = "get_merge_request_content"
    · rcases hp : bag.lookup "project_id" with _ | v
      · simp [glHandle, hname, hp] at h
      · rcases v with s | m
        · rcases hi : bag.lookup "merge_request_iid" with _ | w
          · simp [glHandle, hname, hp, hi] at h
          · rcases w with s2 | m2
            · simp [glHandle, hname, hp, hi] at h
            · refine glCore_ok s m2 net res ?_
              simpa [glHandle, hname, hp, hi] using h
        · simp [glHandle, hname, hp] at h
    · simp [glHandle, hname] at h

/-- Claim C10 confirmed: across all three adapters, every successful
invocation returns a content sequence of exactly one element, and that
element has kind "text" — for every request and every oracle behaviour. -/
theorem C10_theorem (req1 req2 req3 : McpRequest)
    (bnet : BraveCall → Except NetErr BraveSearchResponse) (gnet : GhNet) (lnet : GlNet)
    (res1 res2 res3 : InvocationResult)
    (h1 : (braveHandle req1 bnet).fst = .ok res1)
    (h2 : (ghHandle req2 gnet).fst = .ok res2)
    (h3 : (glHandle req3 lnet).fst = .ok res3) :
    res1.content.length = 1 ∧ res1.content.map ContentItem.type = ["text"]
    ∧ res2.content.length = 1 ∧ res2.content.map ContentItem.type = ["text"]
    ∧ res3.content.length = 1 ∧ res3.content.map ContentItem.type = ["text"] := by
  have m1 := braveHandle_ok req1 bnet res1 h1
  have m2 := ghHandle_ok req2 gnet res2 h2
  have m3 := glHandle_ok req3 lnet res3 h3
  exact ⟨contentLenOne res1 m1, m1, contentLenOne res2 m2, m2, contentLenOne res3 m3, m3⟩

/-- A Gitbeaker oracle answering both endpoints successfully. -/
def lnetOkEmpty : GlNet :=
  ⟨fun _ _ => .ok ⟨1, 2, "t", "d", "opened", "s", "m"⟩, fun _ _ => .ok []⟩

/-- Concrete instance of claim C10: one successful invocation per
adapter. -/
theorem C10_theorem_witness :
    (⟨[⟨"text", "No results found."⟩]⟩ : InvocationResult).content.length = 1
    ∧ (⟨[⟨"text", "No results found."⟩]⟩ : InvocationResult).content.map ContentItem.type
        = ["text"]
    ∧ (⟨[⟨"text", "hi"⟩]⟩ : InvocationResult).content.length = 1
    ∧ (⟨[⟨"text", "hi"⟩]⟩ : InvocationResult).content.map ContentItem.type = ["text"]
    ∧ (⟨[⟨"text", renderJson 0 (glContentJson ⟨1, 2, "t", "d", "opened", "s", "m"⟩ [])⟩]⟩ :
        InvocationResult).content.length = 1
    ∧ (⟨[⟨"text", renderJson 0 (glContentJson ⟨1, 2, "t", "d", "opened", "s", "m"⟩ [])⟩]⟩ :
        InvocationResult).content.map ContentItem.type = ["text"] :=
  C10_theorem ⟨"search", some [("query", .vstr "x")]⟩
    ⟨"read_file", some [("owner", .vstr "o"), ("repo", .vstr "r"), ("path", .vstr "p")]⟩
    ⟨"get_merge_request_content",
      some [("project_id", .vstr "p"), ("merge_request_iid", .vnum 1)]⟩
    bnetEmpty gnetHi lnetOkEmpty
    ⟨[⟨"text", "No results found."⟩]⟩ ⟨[⟨"text", "hi"⟩]⟩
    ⟨[⟨"text", renderJson 0 (glContentJson ⟨1, 2, "t", "d", "opened", "s", "m"⟩ [])⟩]⟩
    rfl rfl rfl

end Mcp
